import Mathlib

/-!
Shallow embedding of the Electronic-Health-Record web client.

The data model and the row-level-security (RLS) policies are translated
from the SQL migration (src/unnamed/part_002); the page-level fetch,
filter and submit logic is translated from the React pages
(src/src/pages/Appointments.tsx, MedicalRecords.tsx, Patients.tsx,
Dashboard.tsx) and the sidebar (src/unnamed/part_000).

Modelling conventions:
  * UUIDs are `Nat`; SQL `DATE`/`TIME` are `Nat` (their ordering is all
    that matters); nullable text columns are `Option String`.
  * A Supabase query is: filter the table by the union of its RLS
    SELECT policies for the calling user, apply the client's `.eq`
    filters, then sort by the client's `.order` keys.
  * Embedded resources (`patients!inner(profiles!inner(full_name))`)
    are treated as data lookups on the referenced rows; the page-state
    row type `ApptRow` mirrors the component's `Appointment` interface
    with the joined display names flattened in.
-/

namespace EHR

/-- `public.profiles` (part_002 lines 2-11). -/
structure Profile where
  id : Nat
  user_id : Nat
  full_name : String
  email : String
  phone : Option String
  role : String
deriving DecidableEq, Repr

/-- `public.patients` (part_002 lines 14-25); demographic columns omitted
as no claim mentions them. -/
structure Patient where
  id : Nat
  profile_id : Nat
deriving DecidableEq, Repr

/-- `public.doctors` (part_002 lines 28-38). -/
structure Doctor where
  id : Nat
  profile_id : Nat
  specialization : String
deriving DecidableEq, Repr

/-- `public.appointments` (part_002 lines 41-53). -/
structure Appointment where
  id : Nat
  patient_id : Nat
  doctor_id : Nat
  appointment_date : Nat
  appointment_time : Nat
  duration_minutes : Nat
  status : String
  reason : Option String
  notes : Option String
deriving DecidableEq, Repr

/-- `public.medical_records` (part_002 lines 56-70). -/
structure MedicalRecord where
  id : Nat
  patient_id : Nat
  doctor_id : Nat
  appointment_id : Option Nat
  record_date : Nat
  diagnosis : Option String
  symptoms : Option String
  treatment : Option String
  medications : Option String
  lab_results : Option String
  notes : Option String
deriving DecidableEq, Repr

/-- The relational store: one list per table. -/
structure DB where
  profiles : List Profile
  patients : List Patient
  doctors : List Doctor
  appointments : List Appointment
  medical_records : List MedicalRecord
deriving DecidableEq, Repr

/-! ### RLS policies (part_002 lines 79-168)

Each SQL `EXISTS (...)` subquery becomes a boolean `List.any` scan; a
row is visible to user `uid` iff some permissive SELECT policy of its
table accepts it. -/

/-- Policy "Patients can view their own data" (part_002 lines 90-97). -/
def patientsSelfPolicy (db : DB) (uid : Nat) (p : Patient) : Bool :=
  db.profiles.any fun prof => prof.id == p.profile_id && prof.user_id == uid

/-- Policy "Doctors can view their patients" (part_002 lines 99-106):
the subquery only checks that the caller is a doctor, independent of
the row. -/
def patientsDoctorPolicy (db : DB) (uid : Nat) (_p : Patient) : Bool :=
  db.profiles.any fun p1 => db.doctors.any fun d =>
    p1.id == d.profile_id && p1.user_id == uid && p1.role == "doctor"

/-- Policy "Admins can view all patients" (part_002 lines 108-114). -/
def patientsAdminPolicy (db : DB) (uid : Nat) (_p : Patient) : Bool :=
  db.profiles.any fun prof => prof.user_id == uid && prof.role == "admin"

/-- Rows of `patients` visible to `uid`. -/
def visiblePatients (db : DB) (uid : Nat) : List Patient :=
  db.patients.filter fun p =>
    patientsSelfPolicy db uid p || patientsDoctorPolicy db uid p ||
      patientsAdminPolicy db uid p

/-- Policy "Patients can view their appointments" (part_002 lines 129-137). -/
def apptPatientPolicy (db : DB) (uid : Nat) (a : Appointment) : Bool :=
  db.patients.any fun p => db.profiles.any fun prof =>
    p.profile_id == prof.id && p.id == a.patient_id && prof.user_id == uid

/-- Policy "Doctors can view their appointments" (part_002 lines 139-147). -/
def apptDoctorPolicy (db : DB) (uid : Nat) (a : Appointment) : Bool :=
  db.doctors.any fun d => db.profiles.any fun prof =>
    d.profile_id == prof.id && d.id == a.doctor_id && prof.user_id == uid

/-- An `appointments` row is visible iff one of its two (and only two)
SELECT policies accepts it. -/
def apptVisible (db : DB) (uid : Nat) (a : Appointment) : Bool :=
  apptPatientPolicy db uid a || apptDoctorPolicy db uid a

/-- Policy "Patients can view their medical records" (part_002 lines 150-158). -/
def mrPatientPolicy (db : DB) (uid : Nat) (r : MedicalRecord) : Bool :=
  db.patients.any fun p => db.profiles.any fun prof =>
    p.profile_id == prof.id && p.id == r.patient_id && prof.user_id == uid

/-- Policy "Doctors can view medical records for their patients"
(part_002 lines 160-168). -/
def mrDoctorPolicy (db : DB) (uid : Nat) (r : MedicalRecord) : Bool :=
  db.doctors.any fun d => db.profiles.any fun prof =>
    d.profile_id == prof.id && d.id == r.doctor_id && prof.user_id == uid

/-- A `medical_records` row is visible iff one of its two SELECT
policies accepts it. -/
def mrVisible (db : DB) (uid : Nat) (r : MedicalRecord) : Bool :=
  mrPatientPolicy db uid r || mrDoctorPolicy db uid r

/-! ### Client-side query helpers -/

/-- Supabase `.single()`: yields the row iff the filtered result has
exactly one row, otherwise an error (modelled as `none`, which the
pages treat as "no data"). -/
def singleRow {α : Type} (l : List α) : Option α :=
  match l with
  | [x] => some x
  | _ => none

/-- `supabase.from('patients').select('id').eq('profile_id', userProfile.id).single()`
as issued by the pages; the select itself runs under the patients RLS. -/
def getOwnPatient (db : DB) (me : Profile) : Option Patient :=
  singleRow ((visiblePatients db me.user_id).filter fun p => p.profile_id == me.id)

/-- `supabase.from('doctors').select('id').eq('profile_id', userProfile.id).single()`;
the doctors table is readable by everyone (part_002 line 117). -/
def getOwnDoctor (db : DB) (me : Profile) : Option Doctor :=
  singleRow (db.doctors.filter fun d => d.profile_id == me.id)

/-- Insert `x` into `l` before the first element `y` with `le x y`;
the insertion step of a stable sort. -/
def insertBy {α : Type} (le : α → α → Bool) (x : α) : List α → List α
  | [] => [x]
  | y :: t => if le x y then x :: y :: t else y :: insertBy le x t

/-- Stable insertion sort; models the store's `.order(...)` clauses
(a stable ascending sort by the given key comparison). -/
def sortBy {α : Type} (le : α → α → Bool) : List α → List α
  | [] => []
  | x :: t => insertBy le x (sortBy le t)

/-- Sort key of `fetchAppointments`: `.order('appointment_date',
ascending).order('appointment_time', ascending)`. -/
def apptLe (a b : Appointment) : Bool :=
  a.appointment_date < b.appointment_date ||
    (a.appointment_date == b.appointment_date &&
      a.appointment_time ≤ b.appointment_time)

/-- `fetchAppointments` (Appointments.tsx lines 63-113): RLS-visible
rows, narrowed by `.eq('doctor_id', …)` for a doctor caller and
`.eq('patient_id', …)` for a patient caller (skipped when the
`.single()` probe returned no data), ordered by `(date, time)`. -/
def fetchAppointments (db : DB) (me : Profile) : List Appointment :=
  let base := db.appointments.filter fun a => apptVisible db me.user_id a
  let rows :=
    if me.role == "doctor" then
      match getOwnDoctor db me with
      | some d => base.filter fun a => a.doctor_id == d.id
      | none => base
    else if me.role == "patient" then
      match getOwnPatient db me with
      | some p => base.filter fun a => a.patient_id == p.id
      | none => base
    else base
  sortBy apptLe rows

/-- Sort key of `fetchMedicalRecords`: `.order('record_date',
ascending: false)`. -/
def recLe (a b : MedicalRecord) : Bool :=
  b.record_date ≤ a.record_date

/-- `fetchMedicalRecords` (MedicalRecords.tsx lines 65-114). -/
def fetchMedicalRecords (db : DB) (me : Profile) : List MedicalRecord :=
  let base := db.medical_records.filter fun r => mrVisible db me.user_id r
  let rows :=
    if me.role == "doctor" then
      match getOwnDoctor db me with
      | some d => base.filter fun r => r.doctor_id == d.id
      | none => base
    else if me.role == "patient" then
      match getOwnPatient db me with
      | some p => base.filter fun r => r.patient_id == p.id
      | none => base
    else base
  sortBy recLe rows

/-! ### Sidebar menu (src/unnamed/part_000 lines 26-40) -/

/-- The five base `menuItems` labels, in source order. -/
def baseMenuItems : List String :=
  ["Dashboard", "Patients", "Doctors", "Appointments", "Medical Records"]

/-- JavaScript `arr.splice(start, count)` (removal form): drop `count`
elements starting at index `start`. -/
def splice (l : List String) (start count : Nat) : List String :=
  l.take start ++ l.drop (start + count)

/-- The sidebar's role-dependent menu: `splice(2, 1)` for doctors,
`splice(1, 2)` for patients (part_000 lines 34-40). -/
def menuItems (role : String) : List String :=
  let items := baseMenuItems
  let items := if role == "doctor" then splice items 2 1 else items
  let items := if role == "patient" then splice items 1 2 else items
  items

/-! ### Page state and client-side filtering (Appointments.tsx) -/

/-- The component's `Appointment` interface (Appointments.tsx lines
15-34): the fetched row with the joined display names flattened in
(`patients.profiles.full_name`, `doctors.profiles.full_name`,
`doctors.specialization`). -/
structure ApptRow where
  id : Nat
  appointment_date : Nat
  appointment_time : Nat
  duration_minutes : Nat
  status : String
  reason : Option String
  notes : Option String
  patient_name : String
  doctor_name : String
  specialization : String
deriving DecidableEq, Repr

/-- JavaScript `s.toLowerCase()`, viewed as a character list. -/
def lowerChars (s : String) : List Char := s.data.map Char.toLower

/-- Substring test on character lists (the semantics of JavaScript
`String.prototype.includes`). -/
def isInfixB (sub : List Char) : List Char → Bool
  | [] => sub.isEmpty
  | c :: t => sub.isPrefixOf (c :: t) || isInfixB sub t

/-- JavaScript `hay.toLowerCase().includes(sub.toLowerCase())`. -/
def jsIncludesLower (hay sub : String) : Bool :=
  isInfixB (lowerChars sub) (lowerChars hay)

/-- `matchesSearch` (Appointments.tsx lines 218-221): the term matches
the patient name, the doctor name, or — when present — the `reason`
(`reason?.toLowerCase()` is undefined, hence falsy, on a null reason). -/
def matchesSearch (r : ApptRow) (term : String) : Bool :=
  jsIncludesLower r.patient_name term || jsIncludesLower r.doctor_name term ||
    (match r.reason with
     | some rs => jsIncludesLower rs term
     | none => false)

/-- `filteredAppointments` (Appointments.tsx lines 217-226): keep a row
iff it matches the search term and the status filter ("all" matches
every status). -/
def filteredAppointments (rows : List ApptRow) (term statusFilter : String) :
    List ApptRow :=
  rows.filter fun r =>
    matchesSearch r term && (statusFilter == "all" || r.status == statusFilter)

/-- A fetched row for patient "Jane Doe" (spec §8 search scenario). -/
def janeRow : ApptRow :=
  { id := 1, appointment_date := 100, appointment_time := 540,
    duration_minutes := 30, status := "scheduled",
    reason := some "Checkup", notes := none,
    patient_name := "Jane Doe", doctor_name := "Gregory House",
    specialization := "Cardiology" }

/-- A fetched row for patient "John Roe" (spec §8 search scenario). -/
def johnRow : ApptRow :=
  { id := 2, appointment_date := 101, appointment_time := 600,
    duration_minutes := 30, status := "scheduled",
    reason := none, notes := none,
    patient_name := "John Roe", doctor_name := "Gregory House",
    specialization := "Cardiology" }

/-! ### Record-creation form data (MedicalRecords.tsx) -/

/-- Key deduplication done by `new Map(entries)` keyed on `patients.id`
(MedicalRecords.tsx lines 155-162): one entry per key, keys in
first-occurrence order. -/
def dedupKeysFirst : List Nat → List Nat
  | [] => []
  | k :: t => k :: dedupKeysFirst (t.filter fun x => x != k)
termination_by l => l.length
decreasing_by
  exact Nat.lt_succ_of_le (List.length_filter_le _ _)

/-- The patient dropdown of the record-creation form (`fetchDoctorData`,
MedicalRecords.tsx lines 116-168): the distinct patients appearing in
the doctor's own appointments (query `.eq('doctor_id', own)`, run under
the appointments RLS), given by their patient ids. Empty when the
`.single()` doctor probe found no data. -/
def fetchDoctorPatients (db : DB) (me : Profile) : List Nat :=
  match getOwnDoctor db me with
  | none => []
  | some d =>
    let mine := (db.appointments.filter fun a => apptVisible db me.user_id a).filter
      fun a => a.doctor_id == d.id
    dedupKeysFirst (mine.map fun a => a.patient_id)

/-- The record-creation form state (MedicalRecords.tsx lines 46-56);
`appointmentId` empty (`none`) when no related appointment is chosen. -/
structure RecordForm where
  patientId : Nat
  appointmentId : Option Nat
  recordDate : Nat
  diagnosis : String
  symptoms : String
  treatment : String
  medications : String
  labResults : String
  notes : String
deriving DecidableEq, Repr

/-- The insert payload issued by the record-creation form's
`handleSubmit` (MedicalRecords.tsx lines 185-198): `doctor_id` is
hard-wired to the submitting doctor's own row id. -/
def recordInsert (d : Doctor) (newId : Nat) (form : RecordForm) : MedicalRecord :=
  { id := newId, patient_id := form.patientId, doctor_id := d.id,
    appointment_id := form.appointmentId, record_date := form.recordDate,
    diagnosis := some form.diagnosis, symptoms := some form.symptoms,
    treatment := some form.treatment, medications := some form.medications,
    lab_results := some form.labResults, notes := some form.notes }

/-! ### Appointment creation and status actions (Appointments.tsx) -/

/-- The appointment-creation form state (Appointments.tsx lines 46-54). -/
structure AppointmentForm where
  patientId : Nat
  doctorId : Nat
  appointmentDate : Nat
  appointmentTime : Nat
  duration : Nat
  reason : String
  notes : String
deriving DecidableEq, Repr

/-- The insert payload issued by the appointment form's `handleSubmit`
(Appointments.tsx lines 133-176): a patient caller's own patient id
overrides the form's choice, and `status` is the literal "scheduled". -/
def appointmentInsert (db : DB) (me : Profile) (newId : Nat)
    (form : AppointmentForm) : Appointment :=
  let patientId :=
    if me.role == "patient" then
      match getOwnPatient db me with
      | some p => p.id
      | none => form.patientId
    else form.patientId
  { id := newId, patient_id := patientId, doctor_id := form.doctorId,
    appointment_date := form.appointmentDate,
    appointment_time := form.appointmentTime,
    duration_minutes := form.duration,
    status := "scheduled",
    reason := some form.reason, notes := some form.notes }

/-- The status-change buttons rendered on an appointment card
(Appointments.tsx lines 453-473): "Complete" writes "completed" and
"Cancel" writes "cancelled", shown only to a doctor or admin viewer
and only when the row's status is "scheduled". -/
def statusActions (role : String) (status : String) : List String :=
  if (role == "doctor" || role == "admin") && status == "scheduled" then
    ["completed", "cancelled"]
  else []

/-! ### Signup trigger (part_002 lines 205-226) -/

/-- A row of `auth.users` as the signup trigger sees it: the
`raw_user_meta_data` keys `full_name` and `role` may be absent. -/
structure AuthUser where
  id : Nat
  email : String
  meta_full_name : Option String
  meta_role : Option String
deriving DecidableEq, Repr

/-- `public.handle_new_user`: the profile row inserted on first
sign-up; each `COALESCE` becomes `Option.getD` with the SQL default. -/
def handle_new_user (u : AuthUser) (newProfileId : Nat) : Profile :=
  { id := newProfileId, user_id := u.id,
    full_name := u.meta_full_name.getD "User",
    email := u.email, phone := none,
    role := u.meta_role.getD "patient" }

/-! ### Submit effects (C8): dialog, list and re-fetch behaviour -/

/-- Appointments-page UI state touched by `handleSubmit`: the displayed
list, the dialog flag, how many fetches have run, the last toast. -/
structure ApptPageUI where
  appointments : List Appointment
  isDialogOpen : Bool
  fetchCount : Nat
  lastToast : Option String
deriving DecidableEq, Repr

/-- Outcome of the appointment form's `handleSubmit` after the insert
call returns (Appointments.tsx lines 133-176): a store error lands in
the catch block, which only shows an error toast; on success the
dialog closes and `fetchAppointments` re-runs against the updated
store. -/
def apptSubmitResult (ui : ApptPageUI) (db : DB) (me : Profile)
    (inserted : Appointment) (insertError : Bool) : ApptPageUI :=
  if insertError then
    { ui with lastToast := some "Failed to schedule appointment" }
  else
    let db2 : DB := { db with appointments := db.appointments ++ [inserted] }
    { appointments := fetchAppointments db2 me,
      isDialogOpen := false,
      fetchCount := ui.fetchCount + 1,
      lastToast := some "Appointment scheduled successfully" }

/-- MedicalRecords-page UI state touched by `handleSubmit`. -/
structure RecordsPageUI where
  records : List MedicalRecord
  isDialogOpen : Bool
  fetchCount : Nat
  lastToast : Option String
deriving DecidableEq, Repr

/-- Outcome of the record form's `handleSubmit` (MedicalRecords.tsx
lines 170-210): an early return with a toast when the caller has no
doctor row; on a store error only the error toast; on success the
dialog closes and `fetchMedicalRecords` re-runs. -/
def recordSubmitResult (ui : RecordsPageUI) (db : DB) (me : Profile)
    (form : RecordForm) (newId : Nat) (insertError : Bool) : RecordsPageUI :=
  match getOwnDoctor db me with
  | none => { ui with lastToast := some "Doctor profile not found" }
  | some d =>
    if insertError then
      { ui with lastToast := some "Failed to create medical record" }
    else
      let db2 : DB :=
        { db with medical_records :=
            db.medical_records ++ [recordInsert d newId form] }
      { records := fetchMedicalRecords db2 me,
        isDialogOpen := false,
        fetchCount := ui.fetchCount + 1,
        lastToast := some "Medical record created successfully" }

/-! ### Admin "Add Patient" / "Add Doctor" forms (C9) -/

/-- The admin "Add Patient" form fields (Patients.tsx lines 39-49). -/
structure PatientForm where
  fullName : String
  email : String
  phone : String
  dateOfBirth : String
  gender : String
  address : String
  emergencyContactName : String
  emergencyContactPhone : String
  insuranceInfo : String
deriving DecidableEq, Repr

/-- `resetForm` target of the Patients page (Patients.tsx lines 91-104). -/
def emptyPatientForm : PatientForm :=
  { fullName := "", email := "", phone := "", dateOfBirth := "",
    gender := "", address := "", emergencyContactName := "",
    emergencyContactPhone := "", insuranceInfo := "" }

/-- The admin "Add Doctor" form fields (Dashboard.tsx, Doctors section). -/
structure DoctorForm where
  fullName : String
  email : String
  phone : String
  specialization : String
  licenseNumber : String
  department : String
  yearsExperience : String
  bio : String
deriving DecidableEq, Repr

/-- `resetForm` target of the Doctors section. -/
def emptyDoctorForm : DoctorForm :=
  { fullName := "", email := "", phone := "", specialization := "",
    licenseNumber := "", department := "", yearsExperience := "", bio := "" }

/-- Patients-page UI state touched by its `handleSubmit`. -/
structure PatientsPageUI where
  isDialogOpen : Bool
  form : PatientForm
  lastToast : Option String
deriving DecidableEq, Repr

/-- Doctors-section UI state touched by its `handleSubmit`. -/
structure DoctorsPageUI where
  isDialogOpen : Bool
  form : DoctorForm
  lastToast : Option String
deriving DecidableEq, Repr

/-- "Add Patient" `handleSubmit` (Patients.tsx lines 76-89): no store
call at all — an informational toast, dialog closed, form reset. The
pair returns the (unchanged) store alongside the new UI state. -/
def patientsAddSubmit (db : DB) (_ui : PatientsPageUI) :
    DB × PatientsPageUI :=
  (db,
   { isDialogOpen := false, form := emptyPatientForm,
     lastToast := some
       "Patient registration requires proper user creation flow. Please use the authentication system to create new users." })

/-- "Add Doctor" `handleSubmit` (Dashboard.tsx lines 433-446): same
shape as the patient form — toast, close, reset, no store call. -/
def doctorsAddSubmit (db : DB) (_ui : DoctorsPageUI) :
    DB × DoctorsPageUI :=
  (db,
   { isDialogOpen := false, form := emptyDoctorForm,
     lastToast := some
       "Doctor registration requires proper user creation flow. Please use the authentication system to create new doctor accounts." })

/-- The given `patient_id` resolves, via the patients table's
`profile_id`, to the profile's own patient row. -/
def ownsPatientRow (db : DB) (me : Profile) (pid : Nat) : Prop :=
  ∃ p ∈ db.patients, p.id = pid ∧ p.profile_id = me.id

/-- Sample signed-in patient profile. -/
def samplePatientProfile : Profile :=
  { id := 1, user_id := 10, full_name := "Jane Doe",
    email := "jane@example.com", phone := none, role := "patient" }

/-- Sample doctor profile. -/
def sampleDoctorProfile : Profile :=
  { id := 2, user_id := 20, full_name := "Gregory House",
    email := "house@example.com", phone := none, role := "doctor" }

/-- Sample admin profile. -/
def sampleAdminProfile : Profile :=
  { id := 3, user_id := 30, full_name := "Ada Admin",
    email := "admin@example.com", phone := none, role := "admin" }

/-- Sample patient row owned by `samplePatientProfile`. -/
def samplePatient : Patient := { id := 100, profile_id := 1 }

/-- Sample doctor row owned by `sampleDoctorProfile`. -/
def sampleDoctor : Doctor :=
  { id := 200, profile_id := 2, specialization := "Cardiology" }

/-- Sample appointment between `samplePatient` and `sampleDoctor`. -/
def sampleAppt : Appointment :=
  { id := 300, patient_id := 100, doctor_id := 200,
    appointment_date := 100, appointment_time := 540,
    duration_minutes := 30, status := "scheduled",
    reason := some "Checkup", notes := none }

/-- Sample medical record for `samplePatient` by `sampleDoctor`. -/
def sampleRecord : MedicalRecord :=
  { id := 400, patient_id := 100, doctor_id := 200,
    appointment_id := some 300, record_date := 100,
    diagnosis := some "Healthy", symptoms := none, treatment := none,
    medications := none, lab_results := none, notes := none }

/-- A small consistent store: three profiles (patient, doctor, admin),
one patient, one doctor, one appointment, one medical record. -/
def sampleDB : DB :=
  { profiles := [samplePatientProfile, sampleDoctorProfile, sampleAdminProfile],
    patients := [samplePatient],
    doctors := [sampleDoctor],
    appointments := [sampleAppt],
    medical_records := [sampleRecord] }

/-- Sample signup payload carrying no metadata. -/
def sampleNewUser : AuthUser :=
  { id := 40, email := "new@example.com",
    meta_full_name := none, meta_role := none }

/-- Sample record-form contents. -/
def sampleRecordForm : RecordForm :=
  { patientId := 100, appointmentId := none, recordDate := 120,
    diagnosis := "Flu", symptoms := "Fever", treatment := "Rest",
    medications := "None", labResults := "", notes := "" }

/-- Sample MedicalRecords-page UI state with the dialog open. -/
def sampleRecordsUI : RecordsPageUI :=
  { records := [sampleRecord], isDialogOpen := true, fetchCount := 1,
    lastToast := none }

/-! ### Theorems -/

/-- Membership is invariant under `insertBy`. -/
theorem mem_insertBy {α : Type} (le : α → α → Bool) (x a : α) (l : List α) :
    a ∈ insertBy le x l ↔ a = x ∨ a ∈ l := by
  induction l with
  | nil => simp [insertBy]
  | cons y t ih =>
    simp only [insertBy]
    split
    · simp
    · simp [ih]
      tauto

/-- Sorting does not change membership. -/
theorem mem_sortBy {α : Type} (le : α → α → Bool) (a : α) (l : List α) :
    a ∈ sortBy le l ↔ a ∈ l := by
  induction l with
  | nil => simp [sortBy]
  | cons x t ih => simp [sortBy, mem_insertBy, ih]

/-- Every row returned by `fetchAppointments` is a stored appointment
that its table's RLS policies made visible to the caller. -/
theorem mem_fetchAppointments (db : DB) (me : Profile) (a : Appointment)
    (ha : a ∈ fetchAppointments db me) :
    a ∈ db.appointments ∧ apptVisible db me.user_id a = true := by
  simp only [fetchAppointments, mem_sortBy] at ha
  have hbase : a ∈ db.appointments.filter fun x => apptVisible db me.user_id x := by
    split at ha
    · split at ha
      · exact (List.mem_filter.mp ha).1
      · exact ha
    · split at ha
      · split at ha
        · exact (List.mem_filter.mp ha).1
        · exact ha
      · exact ha
  exact ⟨(List.mem_filter.mp hbase).1, (List.mem_filter.mp hbase).2⟩

/-- Every row returned by `fetchMedicalRecords` is a stored medical
record that its table's RLS policies made visible to the caller. -/
theorem mem_fetchMedicalRecords (db : DB) (me : Profile) (r : MedicalRecord)
    (hr : r ∈ fetchMedicalRecords db me) :
    r ∈ db.medical_records ∧ mrVisible db me.user_id r = true := by
  simp only [fetchMedicalRecords, mem_sortBy] at hr
  have hbase : r ∈ db.medical_records.filter fun x => mrVisible db me.user_id x := by
    split at hr
    · split at hr
      · exact (List.mem_filter.mp hr).1
      · exact hr
    · split at hr
      · split at hr
        · exact (List.mem_filter.mp hr).1
        · exact hr
      · exact hr
  exact ⟨(List.mem_filter.mp hbase).1, (List.mem_filter.mp hbase).2⟩

/-- `isInfixB` decides `List.IsInfix`. -/
theorem isInfixB_eq_true_iff (sub : List Char) (l : List Char) :
    isInfixB sub l = true ↔ sub <:+: l := by
  induction l with
  | nil =>
    simp [isInfixB, List.isEmpty_iff]
  | cons c t ih =>
    simp [isInfixB, List.infix_cons_iff, List.isPrefixOf_iff_prefix, ih]

/-- The empty search term matches every row. -/
theorem matchesSearch_empty (r : ApptRow) : matchesSearch r "" = true := by
  have h : jsIncludesLower r.patient_name "" = true := by
    unfold jsIncludesLower
    rw [isInfixB_eq_true_iff]
    exact List.nil_infix
  simp [matchesSearch, h]

/-- `matchesSearch` holds exactly when the lowercased term is a
substring of the lowercased patient name, doctor name, or (non-null)
reason. -/
theorem matchesSearch_eq_true (r : ApptRow) (term : String) :
    matchesSearch r term = true ↔
      lowerChars term <:+: lowerChars r.patient_name ∨
      lowerChars term <:+: lowerChars r.doctor_name ∨
      ∃ rs, r.reason = some rs ∧ lowerChars term <:+: lowerChars rs := by
  cases hr : r.reason with
  | none => simp [matchesSearch, hr, jsIncludesLower, isInfixB_eq_true_iff]
  | some rs =>
    simp [matchesSearch, hr, jsIncludesLower, isInfixB_eq_true_iff]
    tauto

/-- C6: with the status filter at "all", the search box keeps a row iff
the lowercased term is a substring of the lowercased patient name,
doctor name, or reason; on the Jane Doe / John Roe rows the query
"jane" returns exactly the Jane Doe row. -/
theorem search_filter_ci_substring :
    (∀ (rows : List ApptRow) (term : String) (r : ApptRow),
        r ∈ filteredAppointments rows term "all" ↔
          r ∈ rows ∧
            (lowerChars term <:+: lowerChars r.patient_name ∨
             lowerChars term <:+: lowerChars r.doctor_name ∨
             ∃ rs, r.reason = some rs ∧ lowerChars term <:+: lowerChars rs)) ∧
    filteredAppointments [janeRow, johnRow] "jane" "all" = [janeRow] := by
  constructor
  · intro rows term r
    simp [filteredAppointments, List.mem_filter, matchesSearch_eq_true]
  · decide

/-- C7: with an empty search term, the status filter "all" is the
identity on the fetched list, and "cancelled" keeps exactly the rows
whose status is "cancelled". -/
theorem status_filter_all_cancelled (rows : List ApptRow) :
    filteredAppointments rows "" "all" = rows ∧
    filteredAppointments rows "" "cancelled" =
      rows.filter (fun r => r.status == "cancelled") := by
  constructor
  · apply List.filter_eq_self.mpr
    intro r _
    simp [matchesSearch_empty r]
  · apply List.filter_congr
    intro r _
    simp [matchesSearch_empty r]

/-- C10: the navigation menu is a fixed function of the signed-in
profile's role: a patient sees exactly Dashboard, Appointments,
Medical Records; a doctor sees exactly Dashboard, Patients,
Appointments, Medical Records; an admin sees all five entries, in
source order. -/
theorem menu_items_by_role :
    menuItems "patient" = ["Dashboard", "Appointments", "Medical Records"] ∧
    menuItems "doctor" =
      ["Dashboard", "Patients", "Appointments", "Medical Records"] ∧
    menuItems "admin" =
      ["Dashboard", "Patients", "Doctors", "Appointments", "Medical Records"] := by
  refine ⟨rfl, rfl, rfl⟩

/-- C1: for a signed-in identity whose profile role is "patient" — the
unique profile of its user, with no doctor row attached to it — every
row returned by the appointment fetch and by the medical-record fetch
has a `patient_id` that resolves via `patients.profile_id` to that
identity's own patient row. -/
theorem patient_sees_only_own_rows (db : DB) (me : Profile)
    (hrole : me.role = "patient")
    (huser : ∀ prof ∈ db.profiles, prof.user_id = me.user_id → prof = me)
    (hnodoc : ∀ d ∈ db.doctors, d.profile_id ≠ me.id) :
    (∀ a ∈ fetchAppointments db me, ownsPatientRow db me a.patient_id) ∧
    (∀ r ∈ fetchMedicalRecords db me, ownsPatientRow db me r.patient_id) := by
  constructor
  · intro a ha
    have hvis := (mem_fetchAppointments db me a ha).2
    simp only [apptVisible, apptPatientPolicy, apptDoctorPolicy, Bool.or_eq_true,
      List.any_eq_true, Bool.and_eq_true, beq_iff_eq, and_assoc] at hvis
    rcases hvis with ⟨p, hp, prof, hprof, hpp, hpid, huid⟩ |
      ⟨d, hd, prof, hprof, hdp, _, huid⟩
    · have hme := huser prof hprof huid
      exact ⟨p, hp, hpid, by rw [hpp, hme]⟩
    · exact absurd (by rw [hdp, huser prof hprof huid]) (hnodoc d hd)
  · intro r hr
    have hvis := (mem_fetchMedicalRecords db me r hr).2
    simp only [mrVisible, mrPatientPolicy, mrDoctorPolicy, Bool.or_eq_true,
      List.any_eq_true, Bool.and_eq_true, beq_iff_eq, and_assoc] at hvis
    rcases hvis with ⟨p, hp, prof, hprof, hpp, hpid, huid⟩ |
      ⟨d, hd, prof, hprof, hdp, _, huid⟩
    · have hme := huser prof hprof huid
      exact ⟨p, hp, hpid, by rw [hpp, hme]⟩
    · exact absurd (by rw [hdp, huser prof hprof huid]) (hnodoc d hd)

/-- C1 witness: the property instantiated on `sampleDB` for the sample
patient identity. -/
theorem patient_sees_only_own_rows_witness :
    (∀ a ∈ fetchAppointments sampleDB samplePatientProfile,
        ownsPatientRow sampleDB samplePatientProfile a.patient_id) ∧
    (∀ r ∈ fetchMedicalRecords sampleDB samplePatientProfile,
        ownsPatientRow sampleDB samplePatientProfile r.patient_id) :=
  patient_sees_only_own_rows sampleDB samplePatientProfile rfl
    (by decide) (by decide)

/-- C2: contrary to the claim, the admin's appointment fetch returns
the empty list on a store holding an appointment, because the
migration declares no admin SELECT policy on `appointments` — only the
patient-own and doctor-own policies exist — so no row is visible to an
identity that is neither the appointment's patient nor its doctor. -/
theorem admin_appointment_fetch_empty :
    sampleDB.appointments = [sampleAppt] ∧
    sampleAdminProfile.role = "admin" ∧
    fetchAppointments sampleDB sampleAdminProfile = [] := by decide

/-- A successful `.single()` probe for the caller's doctor row returns
a stored doctor row owned by the caller's profile. -/
theorem getOwnDoctor_spec (db : DB) (me : Profile) (d : Doctor)
    (h : getOwnDoctor db me = some d) :
    d ∈ db.doctors ∧ d.profile_id = me.id := by
  have hd : d ∈ db.doctors.filter fun x => x.profile_id == me.id := by
    unfold getOwnDoctor singleRow at h
    split at h
    · rename_i x heq
      rw [heq]
      simp only [Option.some.injEq] at h
      simp [h]
    · exact absurd h (by simp)
  have hm := List.mem_filter.mp hd
  exact ⟨hm.1, by simpa using hm.2⟩

/-- `dedupKeysFirst` does not change the key set. -/
theorem mem_dedupKeysFirst (k : Nat) (l : List Nat) :
    k ∈ dedupKeysFirst l ↔ k ∈ l := by
  induction l using dedupKeysFirst.induct with
  | case1 => simp [dedupKeysFirst]
  | case2 x t ih =>
    rw [dedupKeysFirst]
    simp only [List.mem_cons, ih, List.mem_filter, ne_eq, bne_iff_ne]
    constructor
    · rintro (rfl | ⟨hk, _⟩)
      · exact Or.inl rfl
      · exact Or.inr hk
    · rintro (rfl | hk)
      · exact Or.inl rfl
      · by_cases hx : k = x
        · exact Or.inl hx
        · exact Or.inr ⟨hk, hx⟩

/-- C3: for a doctor caller whose `.single()` probe resolved their own
doctor row, the record-creation form offers exactly the distinct
patients having at least one appointment with that doctor, and every
medical-record insert the form issues carries that doctor's own id as
`doctor_id`. -/
theorem doctor_record_form_scope (db : DB) (me : Profile) (d : Doctor)
    (hme : me ∈ db.profiles)
    (hd : getOwnDoctor db me = some d) :
    (∀ pid, pid ∈ fetchDoctorPatients db me ↔
        ∃ a ∈ db.appointments, a.doctor_id = d.id ∧ a.patient_id = pid) ∧
    (∀ newId form, (recordInsert d newId form).doctor_id = d.id) := by
  obtain ⟨hdmem, hdprof⟩ := getOwnDoctor_spec db me d hd
  constructor
  · intro pid
    unfold fetchDoctorPatients
    rw [hd]
    rw [mem_dedupKeysFirst]
    simp only [List.mem_map, List.mem_filter, beq_iff_eq]
    constructor
    · rintro ⟨a, ⟨⟨ha, _hvis⟩, hdid⟩, hpid⟩
      exact ⟨a, ha, hdid, hpid⟩
    · rintro ⟨a, ha, hdid, hpid⟩
      refine ⟨a, ⟨⟨ha, ?_⟩, hdid⟩, hpid⟩
      simp only [apptVisible, apptDoctorPolicy, Bool.or_eq_true,
        List.any_eq_true, Bool.and_eq_true, beq_iff_eq, and_assoc]
      exact Or.inr ⟨d, hdmem, me, hme, hdprof, hdid.symm, rfl⟩
  · intro newId form
    rfl

/-- C3 witness: the property instantiated on `sampleDB` for the sample
doctor identity. -/
theorem doctor_record_form_scope_witness :
    (∀ pid, pid ∈ fetchDoctorPatients sampleDB sampleDoctorProfile ↔
        ∃ a ∈ sampleDB.appointments,
          a.doctor_id = sampleDoctor.id ∧ a.patient_id = pid) ∧
    (∀ newId form,
        (recordInsert sampleDoctor newId form).doctor_id = sampleDoctor.id) :=
  doctor_record_form_scope sampleDB sampleDoctorProfile sampleDoctor
    (by decide) (by decide)

/-- C4: every appointment the application creates is inserted with
status "scheduled"; a status button exists only on a "scheduled" row
and only writes "completed" or "cancelled"; "no_show" is never
offered. -/
theorem appointment_status_discipline :
    (∀ (db : DB) (me : Profile) (newId : Nat) (form : AppointmentForm),
        (appointmentInsert db me newId form).status = "scheduled") ∧
    (∀ role status s, s ∈ statusActions role status →
        status = "scheduled" ∧ (s = "completed" ∨ s = "cancelled")) ∧
    (∀ role status, status ≠ "scheduled" → statusActions role status = []) ∧
    (∀ role status, "no_show" ∉ statusActions role status) := by
  refine ⟨?_, ?_, ?_, ?_⟩
  · intro db me newId form
    rfl
  · intro role status s hs
    unfold statusActions at hs
    split at hs
    · rename_i hcond
      simp only [Bool.and_eq_true, Bool.or_eq_true, beq_iff_eq] at hcond
      exact ⟨hcond.2, by simpa using hs⟩
    · simp at hs
  · intro role status hne
    unfold statusActions
    split
    · rename_i hcond
      simp only [Bool.and_eq_true, Bool.or_eq_true, beq_iff_eq] at hcond
      exact absurd hcond.2 hne
    · rfl
  · intro role status hmem
    unfold statusActions at hmem
    split at hmem
    · simp at hmem
    · simp at hmem

/-- C4 witness: a doctor viewing a scheduled row is offered exactly the
transitions to "completed"/"cancelled". -/
theorem appointment_status_discipline_witness :
    "completed" ∈ statusActions "doctor" "scheduled" ∧
    ("scheduled" = "scheduled" ∧
      ("completed" = "completed" ∨ "completed" = "cancelled")) :=
  ⟨by decide,
   appointment_status_discipline.2.1 "doctor" "scheduled" "completed" (by decide)⟩

/-- C5: the signup trigger creates a profile whose role is the
explicitly supplied metadata role when one is given and "patient"
otherwise, and whose full name defaults to "User" when not supplied. -/
theorem signup_profile_defaults (u : AuthUser) (i : Nat) :
    (∀ r, u.meta_role = some r → (handle_new_user u i).role = r) ∧
    (u.meta_role = none → (handle_new_user u i).role = "patient") ∧
    (u.meta_full_name = none → (handle_new_user u i).full_name = "User") := by
  refine ⟨?_, ?_, ?_⟩
  · intro r hr
    simp [handle_new_user, hr]
  · intro hr
    simp [handle_new_user, hr]
  · intro hn
    simp [handle_new_user, hn]

/-- C5 witness: a signup carrying no metadata yields role "patient"
and full name "User". -/
theorem signup_profile_defaults_witness :
    (handle_new_user sampleNewUser 5).role = "patient" ∧
    (handle_new_user sampleNewUser 5).full_name = "User" :=
  ⟨(signup_profile_defaults sampleNewUser 5).2.1 rfl,
   (signup_profile_defaults sampleNewUser 5).2.2 rfl⟩

/-- C8: a failed create (appointment or medical record) leaves the
dialog flag, the displayed list and the fetch counter untouched; only
a successful create closes the dialog and re-runs the fetch (against
the updated store). -/
theorem submit_error_keeps_page_state :
    (∀ ui db me ins,
        (apptSubmitResult ui db me ins true).isDialogOpen = ui.isDialogOpen ∧
        (apptSubmitResult ui db me ins true).appointments = ui.appointments ∧
        (apptSubmitResult ui db me ins true).fetchCount = ui.fetchCount) ∧
    (∀ ui db me ins,
        (apptSubmitResult ui db me ins false).isDialogOpen = false ∧
        (apptSubmitResult ui db me ins false).fetchCount = ui.fetchCount + 1 ∧
        (apptSubmitResult ui db me ins false).appointments =
          fetchAppointments
            { db with appointments := db.appointments ++ [ins] } me) ∧
    (∀ rui db me form newId,
        (recordSubmitResult rui db me form newId true).isDialogOpen =
          rui.isDialogOpen ∧
        (recordSubmitResult rui db me form newId true).records = rui.records ∧
        (recordSubmitResult rui db me form newId true).fetchCount =
          rui.fetchCount) ∧
    (∀ rui db me form newId d, getOwnDoctor db me = some d →
        (recordSubmitResult rui db me form newId false).isDialogOpen = false ∧
        (recordSubmitResult rui db me form newId false).fetchCount =
          rui.fetchCount + 1) := by
  refine ⟨?_, ?_, ?_, ?_⟩
  · intro ui db me ins
    simp [apptSubmitResult]
  · intro ui db me ins
    simp [apptSubmitResult]
  · intro rui db me form newId
    cases h : getOwnDoctor db me <;> simp [recordSubmitResult, h]
  · intro rui db me form newId d h
    simp [recordSubmitResult, h]

/-- C8 witness: a successful record create by the sample doctor closes
the dialog and bumps the fetch counter. -/
theorem submit_error_keeps_page_state_witness :
    (recordSubmitResult sampleRecordsUI sampleDB sampleDoctorProfile
        sampleRecordForm 500 false).isDialogOpen = false ∧
    (recordSubmitResult sampleRecordsUI sampleDB sampleDoctorProfile
        sampleRecordForm 500 false).fetchCount =
      sampleRecordsUI.fetchCount + 1 :=
  submit_error_keeps_page_state.2.2.2 sampleRecordsUI sampleDB
    sampleDoctorProfile sampleRecordForm 500 sampleDoctor (by decide)

/-- C9: submitting the admin "Add Patient" or "Add Doctor" form leaves
the store untouched — no patients, doctors or profiles row is created
or modified — and only closes the dialog and resets the form. -/
theorem admin_add_forms_write_nothing (db : DB)
    (pui : PatientsPageUI) (dui : DoctorsPageUI) :
    (patientsAddSubmit db pui).1 = db ∧
    (patientsAddSubmit db pui).2.isDialogOpen = false ∧
    (patientsAddSubmit db pui).2.form = emptyPatientForm ∧
    (doctorsAddSubmit db dui).1 = db ∧
    (doctorsAddSubmit db dui).2.isDialogOpen = false ∧
    (doctorsAddSubmit db dui).2.form = emptyDoctorForm :=
  ⟨rfl, rfl, rfl, rfl, rfl, rfl⟩

end EHR
